import Mathlib

/-!
Verification of `fraud_detection_app.py` (Fake Credit Card Detection Application).

We shallowly embed the program's decision logic:
* `luhn_algorithm` — the card-number checksum validator (source lines 54–71);
* `rule_based_detection` — the batch rule engine over a pandas-like frame of
  optional columns (source lines 73–99);
* `anomaly_detection` — the batch anomaly scorer, with the externally fitted
  IsolationForest abstracted as a label-producing parameter (source lines 102–122);
* `detect_fraud` — the online scoring handler (source lines 127–148).

Python strings are modelled as Lean `String` over ASCII; floats as `ℚ`;
pandas timestamps as `ℤ` seconds.  Python exceptions (KeyError, TypeError,
ValueError) are modelled by `Except String`.
-/

namespace FraudApp

/-- `s.replace(' ', '')` on the character list of `s`. -/
def stripSpaces (s : String) : List Char :=
  s.data.filter (fun c => c ≠ ' ')

/-- Python `str.isdigit` over ASCII: true iff the string is nonempty and every
character is a decimal digit (Python's `''.isdigit()` is `False`). -/
def pyIsDigit (cs : List Char) : Bool :=
  (!cs.isEmpty) && cs.all Char.isDigit

/-- `int(c)` for a digit character. -/
def digitVal (c : Char) : Nat := c.toNat - 48

/-- One step of the Luhn loop body: at a 0-indexed odd position the digit is
doubled, with 9 subtracted when the doubled value exceeds 9. -/
def luhnStep (idx n : Nat) : Nat :=
  if idx % 2 == 1 then
    let m := n * 2
    if m > 9 then m - 9 else m
  else n

/-- The accumulated `total` of the loop in `luhn_algorithm`, over the already
reversed digit values. -/
def luhnTotal (ds : List Nat) : Nat :=
  (List.range ds.length).foldl (fun acc i => acc + luhnStep i (ds.getD i 0)) 0

/-- `luhn_algorithm(card_number)` from the source: strip spaces, reject
non-`isdigit` strings, then check the checksum of the reversed digits. -/
def luhn_algorithm (card_number : String) : Bool :=
  let cs := stripSpaces card_number
  if !pyIsDigit cs then
    false
  else
    let reverse_digits := cs.reverse
    decide (luhnTotal (reverse_digits.map digitVal) % 10 = 0)

/-- The validator contract exactly as the spec words it (used to compare with
`luhn_algorithm`): strip spaces; if any remaining character is a non-digit,
return false; otherwise return whether the Luhn sum of the reversed digits is
divisible by 10.  Note it has no clause for the empty remainder. -/
def luhn_spec_claimed (card_number : String) : Bool :=
  let cs := stripSpaces card_number
  if !cs.all Char.isDigit then
    false
  else
    decide (luhnTotal (cs.reverse.map digitVal) % 10 = 0)

/-- The amended contract: additionally, an empty remainder (empty string or
spaces only) returns false, because Python's `isdigit` demands nonemptiness. -/
def luhn_spec_amended (card_number : String) : Bool :=
  let cs := stripSpaces card_number
  if cs.isEmpty || !cs.all Char.isDigit then
    false
  else
    decide (luhnTotal (cs.reverse.map digitVal) % 10 = 0)

example : luhn_algorithm "4539148803436467" = true := by decide
example : luhn_algorithm "4539148803436468" = false := by decide
example : luhn_algorithm "4539x48803436467" = false := by decide
example : luhn_algorithm "" = false := by decide
example : luhn_algorithm " " = false := by decide
example : luhn_spec_claimed " " = true := by decide

/-! ### The batch data frame and `rule_based_detection` -/

/-- A pandas `DataFrame` as it flows through the pipeline: one optional column
per name the program reads or writes (`none` = column absent). `Amount` values
are `ℚ`, `Timestamp` values are `ℤ` seconds, and `TimeGap` entries are
`Option ℤ` (`none` models the `NaN` that `Series.diff` puts in the first row). -/
structure DF where
  cardNumber : Option (List String) := none
  amount : Option (List ℚ) := none
  timestamp : Option (List ℤ) := none
  luhnValid : Option (List Bool) := none
  highAmount : Option (List Bool) := none
  timeGap : Option (List (Option ℤ)) := none
  suspiciousTime : Option (List Bool) := none
  fraudulent : Option (List Bool) := none
  anomaly : Option (List Bool) := none
deriving Repr, DecidableEq

/-- `Series.diff().dt.total_seconds()`: entry `i` is `t_i - t_(i-1)`, with `NaN`
(`none`) in the first row; an empty series stays empty. -/
def seriesDiff : List ℤ → List (Option ℤ)
  | [] => []
  | t :: ts => none :: seriesDiffFrom t ts
where
  seriesDiffFrom (prev : ℤ) : List ℤ → List (Option ℤ)
    | [] => []
    | t :: ts => some (t - prev) :: seriesDiffFrom t ts

/-- `TimeGap < 60` on a float series: pandas evaluates `NaN < 60` as `False`. -/
def gapFlag (g : Option ℤ) : Bool :=
  match g with
  | none => false
  | some x => decide (x < 60)

/-- Rule 1 (source lines 84–85): when `CardNumber` is present, write the
`LuhnValid` column. -/
def applyLuhnRule (df : DF) : DF :=
  match df.cardNumber with
  | some cns => { df with luhnValid := some (cns.map luhn_algorithm) }
  | none => df

/-- Rule 2 (source lines 88–89): when `Amount` is present, write
`HighAmount = Amount > 1000`. -/
def applyAmountRule (df : DF) : DF :=
  match df.amount with
  | some amts => { df with highAmount := some (amts.map (fun a => decide (a > 1000))) }
  | none => df

/-- Rule 3 (source lines 92–94): when `Timestamp` is present, write `TimeGap`
(the diff) and `SuspiciousTime = TimeGap < 60`. -/
def applyTimeRule (df : DF) : DF :=
  match df.timestamp with
  | some ts =>
      let gaps := seriesDiff ts
      { df with timeGap := some gaps, suspiciousTime := some (gaps.map gapFlag) }
  | none => df

/-- Line 97: `df['Fraudulent'] = df['LuhnValid'] & (df['HighAmount'] |
df['SuspiciousTime'])`, reading the three columns unconditionally in Python's
left-to-right order; a missing one raises `KeyError`. -/
def combineFraud (df : DF) : Except String DF :=
  match df.luhnValid with
  | none => Except.error "KeyError: LuhnValid"
  | some lvs =>
    match df.highAmount with
    | none => Except.error "KeyError: HighAmount"
    | some has =>
      match df.suspiciousTime with
      | none => Except.error "KeyError: SuspiciousTime"
      | some sts =>
        Except.ok { df with
          fraudulent := some (List.zipWith (fun l x => l && x) lvs
            (List.zipWith (fun x y => x || y) has sts)) }

/-- `rule_based_detection(df)` from the source: the three guarded rules in
program order, then the unconditional `Fraudulent` combination. -/
def rule_based_detection (df : DF) : Except String DF :=
  combineFraud (applyTimeRule (applyAmountRule (applyLuhnRule df)))

/-! ### `anomaly_detection`

The IsolationForest itself is an external library (`sklearn`); its fitted
behaviour is abstracted as the label vector it predicts, one parameter for each
feature choice the source makes at line 114 (`df[['Amount']]` when the column
exists, otherwise the whole frame).  sklearn's convention: `-1` = outlier. -/

/-- `anomaly_detection(df)` from the source: fit/predict on the amounts (or on
the whole frame when `Amount` is absent), store the raw `-1/1` labels in
`Anomaly`, then remap them with `lambda x: True if x == -1 else False`. -/
def anomaly_detection (predictAmt : List ℚ → List ℤ) (predictAll : DF → List ℤ)
    (df : DF) : DF :=
  let labels : List ℤ :=
    match df.amount with
    | some amts => predictAmt amts
    | none => predictAll df
  { df with anomaly := some (labels.map (fun x => decide (x = -1))) }

/-! ### The online endpoint `detect_fraud` -/

/-- A JSON scalar as the `Amount` field of a request may carry it. -/
inductive JVal where
  | num (q : ℚ)
  | str (s : String)
deriving Repr, DecidableEq

/-- The body of a `/detect` request: `data.get` returns `none` for a missing
key. -/
structure Request where
  cardNumber : Option String := none
  amount : Option JVal := none
deriving Repr, DecidableEq

/-- A simplified model of Python's `float(str)`: surrounding spaces are
ignored, an optional sign is followed by digits with at most one decimal
point, and at least one digit is required.  (Exotic accepted forms such as
exponents, `inf`, `nan` or underscores are not modelled; no claim touches
them.) -/
def parseFloat (s : String) : Option ℚ :=
  let cs := (s.data.dropWhile (fun c => c = ' ')).reverse.dropWhile (fun c => c = ' ') |>.reverse
  let (sgn, body) : ℚ × List Char :=
    match cs with
    | '-' :: rest => (-1, rest)
    | '+' :: rest => (1, rest)
    | _ => (1, cs)
  match body.splitOn '.' with
  | [intPart] =>
      if intPart ≠ [] && intPart.all Char.isDigit then
        some (sgn * (intPart.foldl (fun a c => a * 10 + digitVal c) 0 : ℕ))
      else none
  | [intPart, fracPart] =>
      if (intPart ++ fracPart) ≠ [] && intPart.all Char.isDigit && fracPart.all Char.isDigit then
        some (sgn * ((intPart.foldl (fun a c => a * 10 + digitVal c) 0 : ℕ) +
          (fracPart.foldl (fun a c => a * 10 + digitVal c) 0 : ℕ) / (10 ^ fracPart.length : ℕ)))
      else none
  | _ => none

/-- `float(data.get('Amount'))`: a missing key gives `float(None)` which raises
`TypeError`; a string is parsed, raising `ValueError` when malformed; a number
converts. -/
def pyFloat (v : Option JVal) : Except String ℚ :=
  match v with
  | none => Except.error "TypeError: float() argument must be a string or a real number, not NoneType"
  | some (JVal.num q) => Except.ok q
  | some (JVal.str s) =>
      match parseFloat s with
      | some q => Except.ok q
      | none => Except.error "ValueError: could not convert string to float"

/-- The JSON body that `detect_fraud` returns: exactly these five fields. -/
structure Response where
  CardNumber : String
  Amount : ℚ
  LuhnValid : Bool
  HighAmount : Bool
  Fraudulent : Bool
deriving Repr, DecidableEq

instance {ε α : Type} [DecidableEq ε] [DecidableEq α] : DecidableEq (Except ε α) :=
  fun a b =>
    match a, b with
    | Except.ok x, Except.ok y =>
        if h : x = y then isTrue (by rw [h]) else isFalse (by simp [h])
    | Except.error x, Except.error y =>
        if h : x = y then isTrue (by rw [h]) else isFalse (by simp [h])
    | Except.ok _, Except.error _ => isFalse (by simp)
    | Except.error _, Except.ok _ => isFalse (by simp)

/-- `detect_fraud()` from the source (lines 128–148).  `float(...)` runs first
(line 131); a `None` card number would then make `card_number.replace` raise
`AttributeError` inside `luhn_algorithm` (line 134).  The handler has no
`try/except`: any raised exception escapes it, modelled as `Except.error`. -/
def detect_fraud (req : Request) : Except String Response :=
  match pyFloat req.amount with
  | Except.error e => Except.error e
  | Except.ok amount =>
    match req.cardNumber with
    | none => Except.error "AttributeError: NoneType object has no attribute replace"
    | some card_number =>
      let luhn_valid := luhn_algorithm card_number
      let high_amount := decide (amount > 1000)
      let is_fraudulent := luhn_valid && high_amount
      Except.ok { CardNumber := card_number, Amount := amount,
                  LuhnValid := luhn_valid, HighAmount := high_amount,
                  Fraudulent := is_fraudulent }

example :
    detect_fraud { cardNumber := some "4539148803436467", amount := some (JVal.num 1500) } =
      Except.ok { CardNumber := "4539148803436467", Amount := 1500,
                  LuhnValid := true, HighAmount := true, Fraudulent := true } := by decide

example :
    detect_fraud { cardNumber := some "x", amount := some (JVal.str "abc") } =
      Except.error "ValueError: could not convert string to float" := by decide

example : parseFloat "abc" = none := by decide

example :
    rule_based_detection { cardNumber := some ["4539148803436467"], amount := some [500] } =
      Except.error "KeyError: SuspiciousTime" := by decide

/-! ### Concrete batches used to instantiate the theorems -/

/-- A one-row batch whose card fails the checksum but whose amount is high. -/
def C2df : DF := { cardNumber := some ["1234"], amount := some [2000], timestamp := some [0] }

/-- The enriched frame `rule_based_detection` produces from `C2df`. -/
def C2out : DF :=
  { cardNumber := some ["1234"], amount := some [2000], timestamp := some [0],
    luhnValid := some [false], highAmount := some [true], timeGap := some [none],
    suspiciousTime := some [false], fraudulent := some [false] }

/-- A two-row batch containing the boundary amount 1000. -/
def C4df : DF :=
  { cardNumber := some ["4539148803436467", "4539148803436467"],
    amount := some [1000, 1500], timestamp := some [0, 3600] }

/-- The enriched frame `rule_based_detection` produces from `C4df`. -/
def C4out : DF :=
  { cardNumber := some ["4539148803436467", "4539148803436467"],
    amount := some [1000, 1500], timestamp := some [0, 3600],
    luhnValid := some [true, true], highAmount := some [false, true],
    timeGap := some [none, some 3600], suspiciousTime := some [false, false],
    fraudulent := some [false, true] }

/-- A chronologically ordered two-row batch with a 30-second gap. -/
def C5df : DF :=
  { cardNumber := some ["4539148803436467", "4539148803436467"],
    amount := some [1500, 500], timestamp := some [0, 30] }

/-- The enriched frame `rule_based_detection` produces from `C5df`. -/
def C5out : DF :=
  { cardNumber := some ["4539148803436467", "4539148803436467"],
    amount := some [1500, 500], timestamp := some [0, 30],
    luhnValid := some [true, true], highAmount := some [true, false],
    timeGap := some [none, some 30], suspiciousTime := some [false, true],
    fraudulent := some [true, true] }

/-- An out-of-order two-row batch: the second timestamp precedes the first. -/
def C10df : DF :=
  { cardNumber := some ["4539148803436467", "4539148803436467"],
    amount := some [500, 500], timestamp := some [100, 10] }

/-- The enriched frame `rule_based_detection` produces from `C10df`: the
negative gap is flagged suspicious. -/
def C10out : DF :=
  { cardNumber := some ["4539148803436467", "4539148803436467"],
    amount := some [500, 500], timestamp := some [100, 10],
    luhnValid := some [true, true], highAmount := some [false, false],
    timeGap := some [none, some (-90)], suspiciousTime := some [false, true],
    fraudulent := some [false, true] }

/-- A batch with `CardNumber` and `Amount` but no `Timestamp` column. -/
def C6df : DF := { cardNumber := some ["4539148803436467"], amount := some [500] }

/-- The online response for the checksum-failing card `"1234"` with a high
amount. -/
def C2resp : Response :=
  { CardNumber := "1234", Amount := 2000, LuhnValid := false,
    HighAmount := true, Fraudulent := false }

/-- The online response for a valid card with amount 1500. -/
def C4resp : Response :=
  { CardNumber := "4539148803436467", Amount := 1500, LuhnValid := true,
    HighAmount := true, Fraudulent := true }

/-! ### Helper lemmas about the rule steps -/

lemma applyLuhnRule_amount (df : DF) : (applyLuhnRule df).amount = df.amount := by
  unfold applyLuhnRule; cases df.cardNumber <;> rfl

lemma applyLuhnRule_timestamp (df : DF) : (applyLuhnRule df).timestamp = df.timestamp := by
  unfold applyLuhnRule; cases df.cardNumber <;> rfl

lemma applyLuhnRule_highAmount (df : DF) : (applyLuhnRule df).highAmount = df.highAmount := by
  unfold applyLuhnRule; cases df.cardNumber <;> rfl

lemma applyLuhnRule_suspiciousTime (df : DF) :
    (applyLuhnRule df).suspiciousTime = df.suspiciousTime := by
  unfold applyLuhnRule; cases df.cardNumber <;> rfl

lemma applyAmountRule_timestamp (df : DF) : (applyAmountRule df).timestamp = df.timestamp := by
  unfold applyAmountRule; cases df.amount <;> rfl

lemma applyAmountRule_luhnValid (df : DF) : (applyAmountRule df).luhnValid = df.luhnValid := by
  unfold applyAmountRule; cases df.amount <;> rfl

lemma applyAmountRule_suspiciousTime (df : DF) :
    (applyAmountRule df).suspiciousTime = df.suspiciousTime := by
  unfold applyAmountRule; cases df.amount <;> rfl

lemma applyAmountRule_highAmount_of_amount (df : DF) (amts : List ℚ)
    (h : df.amount = some amts) :
    (applyAmountRule df).highAmount = some (amts.map (fun a => decide (a > 1000))) := by
  unfold applyAmountRule; rw [h]

lemma applyTimeRule_luhnValid (df : DF) : (applyTimeRule df).luhnValid = df.luhnValid := by
  unfold applyTimeRule; cases df.timestamp <;> rfl

lemma applyTimeRule_highAmount (df : DF) : (applyTimeRule df).highAmount = df.highAmount := by
  unfold applyTimeRule; cases df.timestamp <;> rfl

lemma applyTimeRule_suspiciousTime_of_timestamp (df : DF) (ts : List ℤ)
    (h : df.timestamp = some ts) :
    (applyTimeRule df).suspiciousTime = some ((seriesDiff ts).map gapFlag) := by
  unfold applyTimeRule; rw [h]

/-- Anatomy of a successful `Fraudulent` combination: the three columns were
present and `Fraudulent` is their elementwise `lv && (ha || st)`. -/
lemma combineFraud_ok {df df' : DF} (h : combineFraud df = Except.ok df') :
    ∃ lvs has sts, df.luhnValid = some lvs ∧ df.highAmount = some has ∧
      df.suspiciousTime = some sts ∧
      df' = { df with fraudulent := some (List.zipWith (fun l x => l && x) lvs
                (List.zipWith (fun x y => x || y) has sts)) } := by
  unfold combineFraud at h
  cases hlv : df.luhnValid with
  | none => rw [hlv] at h; exact absurd h (by simp)
  | some lvs =>
    rw [hlv] at h
    cases hha : df.highAmount with
    | none => rw [hha] at h; exact absurd h (by simp)
    | some has =>
      rw [hha] at h
      cases hst : df.suspiciousTime with
      | none => rw [hst] at h; exact absurd h (by simp)
      | some sts =>
        rw [hst] at h
        simp only [Except.ok.injEq] at h
        exact ⟨lvs, has, sts, rfl, rfl, rfl, h.symm⟩

/-- Elementwise gate: if the left input of the `&&`-zip is `false` at `i`, so
is the output (out-of-range defaults to `false` as well). -/
lemma zipAnd_getD_false :
    ∀ (lvs rest : List Bool) (i : ℕ), lvs.getD i false = false →
      (List.zipWith (fun l x => l && x) lvs rest).getD i false = false := by
  intro lvs
  induction lvs with
  | nil => intro rest i _; simp [List.zipWith]
  | cons a tl ih =>
    intro rest i h
    cases rest with
    | nil => simp [List.zipWith]
    | cons b rt =>
      cases i with
      | zero =>
        have ha : a = false := by simpa using h
        simp [ha]
      | succ j => simpa using ih rt j (by simpa using h)

lemma seriesDiffFrom_length : ∀ (l : List ℤ) (prev : ℤ),
    (seriesDiff.seriesDiffFrom prev l).length = l.length := by
  intro l
  induction l with
  | nil => intro prev; rfl
  | cons a rest ih => intro prev; simp [seriesDiff.seriesDiffFrom, ih]

lemma seriesDiff_length (ts : List ℤ) : (seriesDiff ts).length = ts.length := by
  cases ts with
  | nil => rfl
  | cons t rest => simp [seriesDiff, seriesDiffFrom_length]

/-- Entry `i` of the running diff is the current element minus the previous one
(`prev :: l` shifts the list so that index `i` names the predecessor). -/
lemma seriesDiffFrom_getD : ∀ (l : List ℤ) (prev : ℤ) (i : ℕ), i < l.length →
    (seriesDiff.seriesDiffFrom prev l).getD i none =
      some (l.getD i 0 - (prev :: l).getD i 0) := by
  intro l
  induction l with
  | nil => intro prev i h; exact absurd h (by simp)
  | cons a rest ih =>
    intro prev i h
    cases i with
    | zero => rfl
    | succ j =>
      have hj : j < rest.length := by simpa using h
      simpa [seriesDiff.seriesDiffFrom] using ih a j hj

/-- Gap entry `i+1` of `Series.diff` is `ts[i+1] - ts[i]`. -/
lemma seriesDiff_getD_succ (ts : List ℤ) (i : ℕ) (h : i + 1 < ts.length) :
    (seriesDiff ts).getD (i + 1) none = some (ts.getD (i + 1) 0 - ts.getD i 0) := by
  cases ts with
  | nil => exact absurd h (by simp)
  | cons t rest =>
    have hi : i < rest.length := by simpa using h
    simpa [seriesDiff] using seriesDiffFrom_getD rest t i hi

lemma map_gapFlag_getD : ∀ (l : List (Option ℤ)) (i : ℕ), i < l.length →
    (l.map gapFlag).getD i false = gapFlag (l.getD i none) := by
  intro l
  induction l with
  | nil => intro i h; exact absurd h (by simp)
  | cons g rest ih =>
    intro i h
    cases i with
    | zero => rfl
    | succ j => simpa using ih j (by simpa using h)

/-- Anatomy of a successful `rule_based_detection` run: the output frame
carries `some` of all three rule columns and `Fraudulent` is their elementwise
`lv && (ha || st)`; the rule columns agree with the ones the three guarded
rule steps produced. -/
lemma rule_based_ok {df df' : DF} (h : rule_based_detection df = Except.ok df') :
    ∃ lvs has sts,
      df'.luhnValid = some lvs ∧ df'.highAmount = some has ∧
      df'.suspiciousTime = some sts ∧
      df'.fraudulent = some (List.zipWith (fun l x => l && x) lvs
        (List.zipWith (fun x y => x || y) has sts)) ∧
      (applyTimeRule (applyAmountRule (applyLuhnRule df))).luhnValid = some lvs ∧
      (applyTimeRule (applyAmountRule (applyLuhnRule df))).highAmount = some has ∧
      (applyTimeRule (applyAmountRule (applyLuhnRule df))).suspiciousTime = some sts := by
  obtain ⟨lvs, has, sts, h1, h2, h3, h4⟩ := combineFraud_ok h
  subst h4
  exact ⟨lvs, has, sts, h1, h2, h3, rfl, h1, h2, h3⟩

/-! ### The claims -/

/-- Claim C1, counterexample: on the single-space string the stripped remainder
is empty, every remaining character is vacuously a digit and the Luhn sum 0 is
divisible by 10, so the claimed contract yields `true`; `luhn_algorithm`
returns `false` because Python's `isdigit` is `False` on the empty string. -/
theorem C1_counterexample_space_string :
    luhn_algorithm " " ≠ luhn_spec_claimed " " := by decide

/-- Claim C1 (amended): `is_valid_card` strips embedded spaces; if the stripped
remainder is empty or any remaining character is a non-digit it returns false
without raising; otherwise it returns true iff the Luhn sum of the reversed
digit sequence (doubling odd-position digits, subtracting 9 above 9) is
divisible by 10. -/
theorem C1_luhn_matches_amended_contract (s : String) :
    luhn_algorithm s = luhn_spec_amended s := by
  unfold luhn_algorithm luhn_spec_amended pyIsDigit
  cases h1 : (stripSpaces s).isEmpty <;>
    cases h2 : (stripSpaces s).all Char.isDigit <;> simp [h1, h2]

/-- Claim C9, counterexample: the empty string and space-only strings are NOT
accepted — `luhn_algorithm` returns `false` on them, because `''.isdigit()` is
`False` in Python, so the digit check (not the checksum) rejects them. -/
theorem C9_counterexample_empty_card :
    luhn_algorithm "" = false ∧ luhn_algorithm "   " = false := by decide

/-- Claim C9 (amended): for the empty string and any string consisting only of
spaces, `luhn_algorithm` returns `false`: the stripped remainder is empty and
Python's `isdigit` demands at least one character, so the checksum is never
reached. -/
theorem C9_space_only_card_invalid (s : String)
    (h : s.data.all (fun c => c = ' ') = true) :
    luhn_algorithm s = false := by
  have hs : stripSpaces s = [] := by
    unfold stripSpaces
    rw [List.filter_eq_nil_iff]
    intro a ha
    have : a = ' ' := by
      have := List.all_eq_true.mp h a ha
      simpa using this
    simp [this]
  unfold luhn_algorithm pyIsDigit
  rw [hs]
  simp

/-- Witness for C9's amended theorem at the two-space string. -/
theorem C9_space_only_card_invalid_witness :
    ("  ".data.all (fun c => c = ' ') = true) ∧ luhn_algorithm "  " = false :=
  ⟨by decide, C9_space_only_card_invalid "  " (by decide)⟩

/-- Claim C3: for every online request carrying a string `CardNumber` and a
numeric `Amount`, `detect_fraud` returns exactly the five fields
`{CardNumber, Amount, LuhnValid, HighAmount, Fraudulent}` with
`Fraudulent = LuhnValid && HighAmount`; the card `4539148803436467` with
amount 1500 yields `LuhnValid = HighAmount = Fraudulent = true`, and the same
card with amount 500 yields `Fraudulent = false`. -/
theorem C3_online_response_shape :
    (∀ (cn : String) (q : ℚ),
      detect_fraud { cardNumber := some cn, amount := some (JVal.num q) } =
        Except.ok { CardNumber := cn, Amount := q, LuhnValid := luhn_algorithm cn,
                    HighAmount := decide (q > 1000),
                    Fraudulent := luhn_algorithm cn && decide (q > 1000) }) ∧
    detect_fraud { cardNumber := some "4539148803436467",
                   amount := some (JVal.num 1500) } =
      Except.ok { CardNumber := "4539148803436467", Amount := 1500, LuhnValid := true,
                  HighAmount := true, Fraudulent := true } ∧
    detect_fraud { cardNumber := some "4539148803436467",
                   amount := some (JVal.num 500) } =
      Except.ok { CardNumber := "4539148803436467", Amount := 500, LuhnValid := true,
                  HighAmount := false, Fraudulent := false } :=
  ⟨fun _ _ => rfl, by decide, by decide⟩

/-- Claim C8: anomaly scoring only writes the `Anomaly` column — label `-1`
mapped to `true`, any other label to `false` — and leaves every other column
of the frame, in particular the rule-based `Fraudulent`, unchanged; this holds
for every batch and every labelling the fitted IsolationForest may produce. -/
theorem C8_anomaly_only_adds_flag :
    ∀ (predictAmt : List ℚ → List ℤ) (predictAll : DF → List ℤ) (df : DF),
      (anomaly_detection predictAmt predictAll df).cardNumber = df.cardNumber ∧
      (anomaly_detection predictAmt predictAll df).amount = df.amount ∧
      (anomaly_detection predictAmt predictAll df).timestamp = df.timestamp ∧
      (anomaly_detection predictAmt predictAll df).luhnValid = df.luhnValid ∧
      (anomaly_detection predictAmt predictAll df).highAmount = df.highAmount ∧
      (anomaly_detection predictAmt predictAll df).timeGap = df.timeGap ∧
      (anomaly_detection predictAmt predictAll df).suspiciousTime = df.suspiciousTime ∧
      (anomaly_detection predictAmt predictAll df).fraudulent = df.fraudulent ∧
      (anomaly_detection predictAmt predictAll df).anomaly =
        some ((match df.amount with
               | some amts => predictAmt amts
               | none => predictAll df).map (fun x => decide (x = -1))) :=
  fun _ _ _ => ⟨rfl, rfl, rfl, rfl, rfl, rfl, rfl, rfl, rfl⟩

/-- Claim C6 (code bug): on a batch with `CardNumber` and `Amount` columns but
no `Timestamp`, the guarded rules at lines 84–94 do skip `SuspiciousTime`, but
line 97 reads `df['SuspiciousTime']` unconditionally, so `rule_based_detection`
raises `KeyError` instead of completing with a `Fraudulent` verdict. -/
theorem C6_missing_timestamp_keyerror :
    rule_based_detection C6df = Except.error "KeyError: SuspiciousTime" := by decide

/-- Claim C7, counterexample: `detect_fraud` has no `try/except`; with
`Amount = "abc"` the call `float('abc')` raises `ValueError`, and with a
missing `Amount` the call `float(None)` raises `TypeError`.  The exception
escapes the handler (no client-error response is built), so Flask surfaces it
as a 500 server fault rather than a rejected request. -/
theorem C7_counterexample_uncaught_exception :
    detect_fraud { cardNumber := some "4539148803436467",
                   amount := some (JVal.str "abc") } =
      Except.error "ValueError: could not convert string to float" ∧
    detect_fraud { cardNumber := some "4539148803436467", amount := none } =
      Except.error
        "TypeError: float() argument must be a string or a real number, not NoneType" := by
  decide

/-- Claim C7 (amended): for every request whose `Amount` is a non-numeric
string or missing, the handler raises an uncaught `ValueError` resp.
`TypeError`; the failure is propagated out of the handler (the transport turns
it into a server fault), though the server process itself survives. -/
theorem C7_malformed_amount_raises (cn : Option String) (s : String)
    (h : parseFloat s = none) :
    detect_fraud { cardNumber := cn, amount := some (JVal.str s) } =
      Except.error "ValueError: could not convert string to float" ∧
    detect_fraud { cardNumber := cn, amount := none } =
      Except.error
        "TypeError: float() argument must be a string or a real number, not NoneType" := by
  constructor
  · simp [detect_fraud, pyFloat, h]
  · rfl

/-- Witness for C7's amended theorem at `Amount = "abc"`. -/
theorem C7_malformed_amount_raises_witness :
    parseFloat "abc" = none ∧
    (detect_fraud { cardNumber := some "x", amount := some (JVal.str "abc") } =
       Except.error "ValueError: could not convert string to float" ∧
     detect_fraud { cardNumber := some "x", amount := none } =
       Except.error
         "TypeError: float() argument must be a string or a real number, not NoneType") :=
  ⟨by decide, C7_malformed_amount_raises (some "x") "abc" (by decide)⟩

/-- Claim C2: in every evaluation, batch (`rule_based_detection`) or online
(`detect_fraud`), a record whose `LuhnValid` is `false` is never flagged
`Fraudulent`, whatever `HighAmount` and `SuspiciousTime` are: card validity is
a gate. -/
theorem C2_luhn_validity_gates_fraud :
    (∀ (df df' : DF) (lvs frs : List Bool),
      rule_based_detection df = Except.ok df' →
      df'.luhnValid = some lvs → df'.fraudulent = some frs →
      ∀ i : ℕ, lvs.getD i false = false → frs.getD i false = false) ∧
    (∀ (req : Request) (resp : Response),
      detect_fraud req = Except.ok resp →
      resp.LuhnValid = false → resp.Fraudulent = false) := by
  constructor
  · intro df df' lvs frs hok hlv hfr i hi
    obtain ⟨lvs0, has0, sts0, hlv', _, _, hfr', _, _, _⟩ := rule_based_ok hok
    have e1 : lvs0 = lvs := Option.some.inj (hlv'.symm.trans hlv)
    have e2 : frs = List.zipWith (fun l x => l && x) lvs0
        (List.zipWith (fun x y => x || y) has0 sts0) :=
      Option.some.inj (hfr.symm.trans hfr')
    subst e1
    rw [e2]
    exact zipAnd_getD_false _ _ i hi
  · intro req resp hok hlv
    unfold detect_fraud at hok
    cases hamt : pyFloat req.amount with
    | error e => rw [hamt] at hok; exact absurd hok (by simp)
    | ok q =>
      rw [hamt] at hok
      cases hcn : req.cardNumber with
      | none => rw [hcn] at hok; exact absurd hok (by simp)
      | some cn =>
        rw [hcn] at hok
        simp only [Except.ok.injEq] at hok
        subst hok
        have : luhn_algorithm cn = false := hlv
        simp [this]

/-- Witness for C2 on a one-row batch with an invalid card and a high amount,
and on the matching online request. -/
theorem C2_luhn_validity_gates_fraud_witness :
    (rule_based_detection C2df = Except.ok C2out ∧ C2out.luhnValid = some [false] ∧
     C2out.fraudulent = some [false] ∧ ([false] : List Bool).getD 0 false = false) ∧
    ([false] : List Bool).getD 0 false = false ∧
    (detect_fraud { cardNumber := some "1234", amount := some (JVal.num 2000) } =
       Except.ok C2resp ∧ C2resp.LuhnValid = false) ∧
    C2resp.Fraudulent = false :=
  ⟨⟨by decide, rfl, rfl, by decide⟩,
   C2_luhn_validity_gates_fraud.1 C2df C2out [false] [false] (by decide) rfl rfl 0 (by decide),
   ⟨by decide, rfl⟩,
   C2_luhn_validity_gates_fraud.2
     { cardNumber := some "1234", amount := some (JVal.num 2000) } C2resp (by decide) rfl⟩

/-- Claim C4: in the batch path `HighAmount` is the elementwise
`Amount > 1000` (strict), in the online path `HighAmount = Amount > 1000`
(strict); the batch `C4df` containing the boundary amount 1000 gets
`HighAmount = false` in that row, and an online amount of exactly 1000 yields
`HighAmount = false` and `Fraudulent = false`. -/
theorem C4_high_amount_strictly_above_1000 :
    (∀ (df df' : DF) (amts : List ℚ), df.amount = some amts →
      rule_based_detection df = Except.ok df' →
      df'.highAmount = some (amts.map (fun a => decide (a > 1000)))) ∧
    (∀ (cn : String) (q : ℚ) (resp : Response),
      detect_fraud { cardNumber := some cn, amount := some (JVal.num q) } =
        Except.ok resp →
      resp.HighAmount = decide (q > 1000)) ∧
    (rule_based_detection C4df = Except.ok C4out ∧
      C4out.highAmount = some [false, true]) ∧
    detect_fraud { cardNumber := some "4539148803436467",
                   amount := some (JVal.num 1000) } =
      Except.ok { CardNumber := "4539148803436467", Amount := 1000, LuhnValid := true,
                  HighAmount := false, Fraudulent := false } := by
  refine ⟨?_, ?_, ⟨by decide, rfl⟩, by decide⟩
  · intro df df' amts hamt hok
    obtain ⟨lvs0, has0, sts0, _, hha, _, _, _, hha3, _⟩ := rule_based_ok hok
    have hcomp : (applyTimeRule (applyAmountRule (applyLuhnRule df))).highAmount =
        some (amts.map (fun a => decide (a > 1000))) := by
      rw [applyTimeRule_highAmount]
      exact applyAmountRule_highAmount_of_amount _ amts
        (by rw [applyLuhnRule_amount]; exact hamt)
    exact hha.trans (hha3.symm.trans hcomp)
  · intro cn q resp hok
    simp only [detect_fraud, pyFloat] at hok
    simp only [Except.ok.injEq] at hok
    rw [← hok]

/-- Witness for C4: the batch hypothesis at `C4df`, the online hypothesis at
amount 1500. -/
theorem C4_high_amount_strictly_above_1000_witness :
    (C4df.amount = some [1000, 1500] ∧ rule_based_detection C4df = Except.ok C4out) ∧
    C4out.highAmount = some (([1000, 1500] : List ℚ).map (fun a => decide (a > 1000))) ∧
    detect_fraud { cardNumber := some "4539148803436467",
                   amount := some (JVal.num 1500) } = Except.ok C4resp ∧
    C4resp.HighAmount = decide ((1500 : ℚ) > 1000) :=
  ⟨⟨rfl, by decide⟩,
   C4_high_amount_strictly_above_1000.1 C4df C4out [1000, 1500] rfl (by decide),
   by decide,
   C4_high_amount_strictly_above_1000.2.1 "4539148803436467" 1500 C4resp (by decide)⟩

/-- Claim C5: in a batch with a `Timestamp` column whose rows are already in
chronological order, the first row's `SuspiciousTime` is never `true`, and row
`i+1` is flagged exactly when the gap to row `i` is strictly below 60
seconds. -/
theorem C5_suspicious_time_gap_rule :
    ∀ (df df' : DF) (ts : List ℤ) (sts : List Bool),
      df.timestamp = some ts →
      List.Chain' (fun a b : ℤ => a ≤ b) ts →
      rule_based_detection df = Except.ok df' →
      df'.suspiciousTime = some sts →
      sts.length = ts.length ∧
      (∀ h0 : 0 < sts.length, sts.get ⟨0, h0⟩ = false) ∧
      (∀ i : ℕ, i + 1 < ts.length →
        sts.getD (i + 1) false =
          decide (ts.getD (i + 1) 0 - ts.getD i 0 < 60)) := by
  intro df df' ts sts hts _ hok hst
  obtain ⟨lvs0, has0, sts0, _, _, hst', _, _, _, hst3⟩ := rule_based_ok hok
  have hts3 : (applyAmountRule (applyLuhnRule df)).timestamp = some ts := by
    rw [applyAmountRule_timestamp, applyLuhnRule_timestamp]; exact hts
  have hmap : (applyTimeRule (applyAmountRule (applyLuhnRule df))).suspiciousTime =
      some ((seriesDiff ts).map gapFlag) :=
    applyTimeRule_suspiciousTime_of_timestamp _ ts hts3
  have e1 : sts0 = sts := Option.some.inj (hst'.symm.trans hst)
  have e2 : sts0 = (seriesDiff ts).map gapFlag := Option.some.inj (hst3.symm.trans hmap)
  have hsts : sts = (seriesDiff ts).map gapFlag := e1 ▸ e2
  subst hsts
  refine ⟨by simp [seriesDiff_length], ?_, ?_⟩
  · intro h0
    cases ts with
    | nil => exact absurd h0 (by simp [seriesDiff])
    | cons t rest => rfl
  · intro i hi
    have hlt : i + 1 < (seriesDiff ts).length := by rw [seriesDiff_length]; exact hi
    rw [map_gapFlag_getD _ _ hlt, seriesDiff_getD_succ ts i hi]
    rfl

/-- Witness for C5 on the ordered two-row batch with a 30-second gap. -/
theorem C5_suspicious_time_gap_rule_witness :
    (C5df.timestamp = some [0, 30] ∧
     List.Chain' (fun a b : ℤ => a ≤ b) [0, 30] ∧
     rule_based_detection C5df = Except.ok C5out ∧
     C5out.suspiciousTime = some [false, true]) ∧
    (([false, true] : List Bool).length = ([0, 30] : List ℤ).length ∧
     (∀ h0 : 0 < ([false, true] : List Bool).length,
       ([false, true] : List Bool).get ⟨0, h0⟩ = false) ∧
     (∀ i : ℕ, i + 1 < ([0, 30] : List ℤ).length →
       ([false, true] : List Bool).getD (i + 1) false =
         decide (([0, 30] : List ℤ).getD (i + 1) 0 - ([0, 30] : List ℤ).getD i 0 < 60))) :=
  ⟨⟨rfl, List.chain'_cons.mpr ⟨by norm_num, List.chain'_singleton _⟩, by decide, rfl⟩,
   C5_suspicious_time_gap_rule C5df C5out [0, 30] [false, true] rfl
     (List.chain'_cons.mpr ⟨by norm_num, List.chain'_singleton _⟩) (by decide) rfl⟩

/-- Claim C10: in a batch whose `Timestamp` column is not chronologically
ordered, a row whose timestamp precedes its predecessor's (negative gap) is
flagged `SuspiciousTime = true`, since the flag condition `gap < 60` has no
lower bound. -/
theorem C10_negative_gap_flagged_suspicious :
    ∀ (df df' : DF) (ts : List ℤ) (sts : List Bool),
      df.timestamp = some ts →
      rule_based_detection df = Except.ok df' →
      df'.suspiciousTime = some sts →
      ∀ i : ℕ, i + 1 < ts.length → ts.getD (i + 1) 0 < ts.getD i 0 →
        sts.getD (i + 1) false = true := by
  intro df df' ts sts hts hok hst i hi hneg
  obtain ⟨lvs0, has0, sts0, _, _, hst', _, _, _, hst3⟩ := rule_based_ok hok
  have hts3 : (applyAmountRule (applyLuhnRule df)).timestamp = some ts := by
    rw [applyAmountRule_timestamp, applyLuhnRule_timestamp]; exact hts
  have hmap : (applyTimeRule (applyAmountRule (applyLuhnRule df))).suspiciousTime =
      some ((seriesDiff ts).map gapFlag) :=
    applyTimeRule_suspiciousTime_of_timestamp _ ts hts3
  have e1 : sts0 = sts := Option.some.inj (hst'.symm.trans hst)
  have e2 : sts0 = (seriesDiff ts).map gapFlag := Option.some.inj (hst3.symm.trans hmap)
  have hsts : sts = (seriesDiff ts).map gapFlag := e1 ▸ e2
  subst hsts
  have hlt : i + 1 < (seriesDiff ts).length := by rw [seriesDiff_length]; exact hi
  rw [map_gapFlag_getD _ _ hlt, seriesDiff_getD_succ ts i hi]
  simp only [gapFlag, decide_eq_true_eq]
  omega

/-- Witness for C10 on the out-of-order batch with a −90-second gap. -/
theorem C10_negative_gap_flagged_suspicious_witness :
    (C10df.timestamp = some [100, 10] ∧
     rule_based_detection C10df = Except.ok C10out ∧
     C10out.suspiciousTime = some [false, true] ∧
     0 + 1 < ([100, 10] : List ℤ).length ∧
     ([100, 10] : List ℤ).getD (0 + 1) 0 < ([100, 10] : List ℤ).getD 0 0) ∧
    ([false, true] : List Bool).getD (0 + 1) false = true :=
  ⟨⟨rfl, by decide, rfl, by decide, by decide⟩,
   C10_negative_gap_flagged_suspicious C10df C10out [100, 10] [false, true]
     rfl (by decide) rfl 0 (by decide) (by decide)⟩

end FraudApp
